import Mathlib

/-!
Verification of the enrollment/grading subsystem of the Student Management
System (Flask application).

Numbers that the Python code stores as floats (scores, credits, grade
points) are modelled as exact rationals `ℚ`; database tables are modelled
as lists of rows, and each route handler becomes a pure function from a
database state (plus the actor's role and the request parameters) to a
result together with the successor state.  Early returns in the Python
handlers leave the session uncommitted, so in the model they return the
unchanged state.
-/

namespace SMS

/-- A row of the `enrollment` table (models.py, class `Enrollment`):
student and course foreign keys plus the nullable score. -/
structure Enrollment where
  student_id : Nat
  course_id : Nat
  score : Option ℚ
deriving Repr, DecidableEq

/-- A row of the `course` table (models.py, class `Course`): name, credit
and the nullable owning-teacher foreign key. -/
structure Course where
  id : Nat
  name : String
  credit : ℚ
  teacher_id : Option Nat
deriving Repr, DecidableEq

/-- A row of the legacy `grade` mirror table (models.py, class `Grade`). -/
structure Grade where
  student_id : Nat
  course_id : Nat
  score : ℚ
deriving Repr, DecidableEq

/-- The slice of the database the enrollment/grading subsystem touches. -/
structure DBState where
  courses : List Course
  enrollments : List Enrollment
  grades : List Grade
deriving Repr, DecidableEq

/-- `Enrollment.grade_point` (models.py lines 29-37): `0.0` when the score
is `None` or below 60, otherwise `1.0 + (score - 60) * 0.1`. -/
def grade_point (score : Option ℚ) : ℚ :=
  match score with
  | none => 0
  | some s => if s < 60 then 0 else 1 + (s - 60) * (1 / 10)

/-- `en.course.credit`: looks the enrollment's course up in the `course`
table and reads its credit (0 if the foreign key dangles, which the
schema forbids). -/
def creditOf (courses : List Course) (cid : Nat) : ℚ :=
  match courses.find? (fun c => c.id == cid) with
  | some c => c.credit
  | none => 0

/-- The GPA computation of `student_index` (routes/student.py lines
25-35): iterate over the student's enrollments, and for those whose score
is not `None` accumulate `course.credit` into `total_credits` and
`grade_point * course.credit` into `total_points`; the GPA is
`total_points / total_credits` when `total_credits > 0`, else 0. -/
def gpa_for (st : DBState) (sid : Nat) : ℚ :=
  let graded := (st.enrollments.filter (fun e => e.student_id == sid)).filter
    (fun e => e.score.isSome)
  let total_credits := (graded.map (fun e => creditOf st.courses e.course_id)).sum
  let total_points :=
    (graded.map (fun e => grade_point e.score * creditOf st.courses e.course_id)).sum
  if 0 < total_credits then total_points / total_credits else 0

/-- The outcome a route handler reports back to the browser, keyed by the
HTTP-style codes of the JSON responses in routes/teacher.py. -/
inductive Outcome where
  /-- code 200 -/
  | ok
  /-- code 403: the actor lacks the role or the ownership -/
  | permissionError
  /-- code 400: malformed or out-of-range input -/
  | validationError
  /-- code 404: the referenced record does not exist -/
  | notFoundError
  /-- code 500: the commit raised and the handler rolled the session back -/
  | serverError
deriving Repr, DecidableEq

/-- The raw `score` form field after `float()` parsing: missing/empty,
unparseable, or a number. -/
inductive NumInput where
  | empty
  | nonNumeric
  | num (q : ℚ)
deriving Repr, DecidableEq

/-- `Enrollment.query.filter_by(student_id=sid, course_id=cid).first()` is
not `None`: some enrollment row for the pair exists. -/
def enrolled (l : List Enrollment) (sid cid : Nat) : Bool :=
  l.any (fun e => e.student_id == sid && e.course_id == cid)

/-- Number of enrollment rows for a (student, course) pair. -/
def countEnr (l : List Enrollment) (sid cid : Nat) : Nat :=
  (l.filter (fun e => e.student_id == sid && e.course_id == cid)).length

/-- Number of `grade` rows for a (student, course) pair. -/
def countGrd (l : List Grade) (sid cid : Nat) : Nat :=
  (l.filter (fun g => g.student_id == sid && g.course_id == cid)).length

/-- `enrollment.score = new_score` where `enrollment` is the first row
matching the (student, course) pair. -/
def setScoreFirst : List Enrollment → Nat → Nat → ℚ → List Enrollment
  | [], _, _, _ => []
  | e :: rest, sid, cid, q =>
    if e.student_id == sid && e.course_id == cid then
      { e with score := some q } :: rest
    else
      e :: setScoreFirst rest sid cid q

/-- `grade.score = new_score` on the first matching `grade` row. -/
def setGradeFirst : List Grade → Nat → Nat → ℚ → List Grade
  | [], _, _, _ => []
  | g :: rest, sid, cid, q =>
    if g.student_id == sid && g.course_id == cid then
      { g with score := q } :: rest
    else
      g :: setGradeFirst rest sid cid q

/-- The Grade upsert of `submit_score` (routes/teacher.py lines 243-252):
update the first matching `grade` row if one exists, otherwise add a new
one with the submitted score. -/
def upsertGrade (grades : List Grade) (sid cid : Nat) (q : ℚ) : List Grade :=
  if grades.any (fun g => g.student_id == sid && g.course_id == cid) then
    setGradeFirst grades sid cid q
  else
    grades ++ [⟨sid, cid, q⟩]

/-- `submit_score` (routes/teacher.py lines 205-267).  Role gate: only
`role == 1` may proceed.  The score field must be nonempty, parse as a
float, and lie in [0, 100].  An enrollment for the pair must exist; its
score is then set and a mirrored `Grade` row is upserted.  Every failing
branch returns before any mutation, so the state is unchanged there. -/
def submit_score (st : DBState) (role sid cid : Nat) (input : NumInput) :
    Outcome × DBState :=
  if role != 1 then (.permissionError, st)
  else
    match input with
    | .empty => (.validationError, st)
    | .nonNumeric => (.validationError, st)
    | .num q =>
      if q < 0 ∨ 100 < q then (.validationError, st)
      else if enrolled st.enrollments sid cid then
        (.ok, { st with
          enrollments := setScoreFirst st.enrollments sid cid q,
          grades := upsertGrade st.grades sid cid q })
      else
        (.notFoundError, st)

/-- One iteration of the `select_course` loop (routes/student.py lines
168-182): skip the course id if an enrollment for the pair already exists
(the just-added pending rows are visible to the duplicate check, as the
session autoflushes before the query), otherwise add a new enrollment with
null score and bump the count. -/
def selectStep (sid : Nat) (acc : DBState × Nat) (cid : Nat) : DBState × Nat :=
  let (st, count) := acc
  if enrolled st.enrollments sid cid then
    (st, count)
  else
    ({ st with enrollments := st.enrollments ++ [⟨sid, cid, none⟩] }, count + 1)

/-- `select_course` (routes/student.py lines 155-190): only `role == 0`
may enroll; an empty id list is rejected; otherwise the loop above runs
over the submitted course ids and the number of newly created enrollments
is reported. -/
def select_course (st : DBState) (role sid : Nat) (course_ids : List Nat) :
    DBState × Option Nat :=
  if role != 0 then (st, none)
  else if course_ids.isEmpty then (st, none)
  else
    let (st1, count) := course_ids.foldl (selectStep sid) (st, 0)
    (st1, some count)

/-- `delete_course` (routes/teacher.py lines 132-157).  Only `role == 1`
may call it; the course must exist and belong to the actor.
`db.session.delete(course)` removes the course row, and the
`cascade="all, delete-orphan"` on `Enrollment.course` (models.py line 27)
deletes every enrollment of the course.  The `Grade` relationships
(models.py lines 215-216) declare no delete cascade and no passive
deletes, so on flush the ORM instead nulls `course_id` on the course's
`grade` rows; that column is `nullable=False` (models.py line 209), so
when any such row exists the commit raises an integrity error, the
handler's except branch rolls the session back and answers code 500 with
nothing deleted.  Deletion therefore succeeds only when the course has no
`grade` rows. -/
def delete_course (st : DBState) (role actorId : Nat) (course_id : Option Nat) :
    Outcome × DBState :=
  if role != 1 then (.permissionError, st)
  else
    match course_id with
    | none => (.validationError, st)
    | some cid =>
      match st.courses.find? (fun c => c.id == cid) with
      | none => (.notFoundError, st)
      | some course =>
        if course.teacher_id != some actorId then (.permissionError, st)
        else if st.grades.any (fun g => g.course_id == cid) then
          (.serverError, st)
        else
          (.ok, { st with
            courses := st.courses.filter (fun c => c.id != cid),
            enrollments := st.enrollments.filter (fun e => e.course_id != cid) })

/-- Course creation in `course_manage` (routes/teacher.py lines 73-104):
only `role == 1`; name and credit must be nonempty, the credit must parse
as a float and be nonnegative — no upper bound and no 0.5 lower bound is
checked on this path. -/
def teacher_create_course (st : DBState) (role actorId : Nat) (name : String)
    (credit : NumInput) (newId : Nat) : Outcome × DBState :=
  if role != 1 then (.permissionError, st)
  else if name = "" ∨ credit = .empty then (.validationError, st)
  else
    match credit with
    | .empty => (.validationError, st)
    | .nonNumeric => (.validationError, st)
    | .num q =>
      if q < 0 then (.validationError, st)
      else
        (.ok, { st with courses := st.courses ++ [⟨newId, name, q, some actorId⟩] })

/-- `CourseForm` validation (routes/admin.py lines 88-94): the name is
`DataRequired` and the credit is `DataRequired` plus
`NumberRange(min=0.5, max=10)` (`DataRequired` also rejects the falsy
credit 0.0, which the range check rejects anyway). -/
def courseFormValid (name : String) (credit : NumInput) : Bool :=
  match credit with
  | .num q => name != "" && (1 / 2 : ℚ) ≤ q && q ≤ 10
  | _ => false

/-- `add_course` (routes/admin.py lines 173-199): teachers and admins
(`role < 1` is rejected) create a course through `CourseForm`; on a
validation failure the form re-renders and no course is created. -/
def add_course (st : DBState) (role actorId : Nat) (name : String)
    (credit : NumInput) (newId : Nat) : Outcome × DBState :=
  if role < 1 then (.permissionError, st)
  else
    match credit with
    | .num q =>
      if courseFormValid name credit then
        (.ok, { st with courses := st.courses ++ [⟨newId, name, q, some actorId⟩] })
      else (.validationError, st)
    | _ => (.validationError, st)

/-! ## Theorems -/

/-- C1: For every enrollment, the derived grade-point is a pure function
of its score: 0.0 when the score is absent or below 60, and
`1.0 + (score - 60) * 0.1` when the score is in [60, 100]; in particular
score 96 gives 4.6, score 60 gives 1.0, and score 59.9 gives 0.0. -/
theorem grade_point_spec (s : ℚ) :
    (60 ≤ s → s ≤ 100 → grade_point (some s) = 1 + (s - 60) * (1 / 10)) ∧
    (s < 60 → grade_point (some s) = 0) ∧
    grade_point none = 0 ∧
    grade_point (some 96) = 46 / 10 ∧
    grade_point (some 60) = 1 ∧
    grade_point (some (599 / 10)) = 0 := by
  refine ⟨fun h1 _ => ?_, fun h => ?_, rfl, by norm_num [grade_point],
    by norm_num [grade_point], by norm_num [grade_point]⟩
  · simp [grade_point, not_lt.mpr h1]
  · simp [grade_point, h]

/-- Witness for C1: the theorem applied at score 96. -/
theorem grade_point_spec_witness :
    grade_point (some 96) = 1 + ((96 : ℚ) - 60) * (1 / 10) :=
  (grade_point_spec 96).1 (by norm_num) (by norm_num)

/-- Counterexample for C7: score 100 is in the valid range [0, 100], but
its grade-point is 5.0, which exceeds the claimed 4.6 upper bound. -/
theorem grade_point_above_46_at_100 :
    (0 : ℚ) ≤ 100 ∧ (100 : ℚ) ≤ 100 ∧ grade_point (some 100) = 5 ∧
    ¬ grade_point (some 100) ≤ 46 / 10 := by
  norm_num [grade_point]

/-- C7 (amended): for every score in the valid range [0, 100], the derived
grade-point lies within the 0.0 to 5.0 scale. -/
theorem grade_point_range (s : ℚ) (_h0 : 0 ≤ s) (h1 : s ≤ 100) :
    0 ≤ grade_point (some s) ∧ grade_point (some s) ≤ 5 := by
  rcases lt_or_le s 60 with h | h
  · simp [grade_point, h]
  · rw [show grade_point (some s) = 1 + (s - 60) * (1 / 10) by
      simp [grade_point, not_lt.mpr h]]
    constructor <;> nlinarith

/-- Witness for C7 (amended): the theorem applied at score 100. -/
theorem grade_point_range_witness :
    0 ≤ grade_point (some 100) ∧ grade_point (some 100) ≤ 5 :=
  grade_point_range 100 (by norm_num) (by norm_num)

lemma creditOf_nonneg (courses : List Course) (cid : Nat)
    (h : ∀ c ∈ courses, 0 ≤ c.credit) : 0 ≤ creditOf courses cid := by
  unfold creditOf
  cases hf : courses.find? (fun c => c.id == cid) with
  | none => exact le_refl 0
  | some c => exact h c (List.mem_of_find?_eq_some hf)

/-- C2: for every student, the GPA equals the sum over graded enrollments
of `grade_point * credit` divided by the sum of credits of graded
enrollments (ungraded enrollments are excluded from both the numerator and
the denominator), and it is 0 when the student has no graded enrollment;
with enrollments [(credit 3, score 90), (credit 2, score null)] the GPA is
exactly `grade_point 90 = 4`. -/
theorem gpa_for_spec (st : DBState) (sid : Nat)
    (hcred : ∀ c ∈ st.courses, 0 ≤ c.credit) :
    (gpa_for st sid =
      (((st.enrollments.filter (fun e => e.student_id == sid)).filter
          (fun e => e.score.isSome)).map
        (fun e => grade_point e.score * creditOf st.courses e.course_id)).sum /
      (((st.enrollments.filter (fun e => e.student_id == sid)).filter
          (fun e => e.score.isSome)).map
        (fun e => creditOf st.courses e.course_id)).sum) ∧
    ((st.enrollments.filter (fun e => e.student_id == sid)).filter
        (fun e => e.score.isSome) = [] → gpa_for st sid = 0) ∧
    gpa_for ⟨[⟨1, "A", 3, some 7⟩, ⟨2, "B", 2, some 7⟩],
      [⟨5, 1, some 90⟩, ⟨5, 2, none⟩], []⟩ 5 = grade_point (some 90) ∧
    grade_point (some 90) = 4 := by
  refine ⟨?_, ?_,
    by norm_num [gpa_for, creditOf, grade_point, List.filter, List.find?],
    by norm_num [grade_point]⟩
  · show (if 0 < _ then _ / _ else 0) = _
    set graded := (st.enrollments.filter (fun e => e.student_id == sid)).filter
      (fun e => e.score.isSome) with hg
    have htc : 0 ≤ (graded.map (fun e => creditOf st.courses e.course_id)).sum := by
      apply List.sum_nonneg
      intro x hx
      rcases List.mem_map.mp hx with ⟨e, _, he⟩
      rw [← he]
      exact creditOf_nonneg st.courses e.course_id hcred
    by_cases h : 0 < (graded.map (fun e => creditOf st.courses e.course_id)).sum
    · rw [if_pos h]
    · rw [if_neg h]
      have h0 : (graded.map (fun e => creditOf st.courses e.course_id)).sum = 0 :=
        le_antisymm (not_lt.mp h) htc
      rw [h0, div_zero]
  · intro h
    show (if 0 < _ then _ / _ else 0) = 0
    rw [h]
    simp

/-- Witness for C2: the theorem applied at the concrete two-enrollment
state of the claim. -/
theorem gpa_for_spec_witness :
    gpa_for ⟨[⟨1, "A", 3, some 7⟩, ⟨2, "B", 2, some 7⟩],
      [⟨5, 1, some 90⟩, ⟨5, 2, none⟩], []⟩ 5 = grade_point (some 90) :=
  (gpa_for_spec ⟨[⟨1, "A", 3, some 7⟩, ⟨2, "B", 2, some 7⟩],
      [⟨5, 1, some 90⟩, ⟨5, 2, none⟩], []⟩ 5
    (by intro c hc; fin_cases hc <;> norm_num)).2.2.1

/-- C9 (amended): `submit_score` passes the permission check exactly for
role teacher (`role == 1`): a teacher never receives the permission error,
while every other role — students (0) and admins (2) alike — fails with
the permission error and the state is unchanged. -/
theorem submit_score_permission (st : DBState) (role sid cid : Nat)
    (input : NumInput) :
    (role = 1 → (submit_score st role sid cid input).1 ≠ .permissionError) ∧
    (role ≠ 1 → submit_score st role sid cid input = (.permissionError, st)) := by
  constructor
  · intro h1
    subst h1
    unfold submit_score
    simp only [bne_self_eq_false, Bool.false_eq_true, if_false]
    cases input with
    | empty => simp
    | nonNumeric => simp
    | num q =>
      by_cases hq : q < 0 ∨ 100 < q
      · simp [hq]
      · by_cases he : enrolled st.enrollments sid cid <;> simp [hq, he]
  · intro h1
    unfold submit_score
    simp [bne_iff_ne, h1]

/-- Witness for C9 (amended): a teacher (role 1) on an empty state is not
rejected by the permission check, while a student (role 0) and an admin
(role 2) are. -/
theorem submit_score_permission_witness :
    (submit_score ⟨[], [], []⟩ 1 5 1 (.num 85)).1 ≠ .permissionError ∧
    submit_score ⟨[], [], []⟩ 0 5 1 (.num 85) = (.permissionError, ⟨[], [], []⟩) ∧
    submit_score ⟨[], [], []⟩ 2 5 1 (.num 85) = (.permissionError, ⟨[], [], []⟩) :=
  ⟨(submit_score_permission ⟨[], [], []⟩ 1 5 1 (.num 85)).1 rfl,
   (submit_score_permission ⟨[], [], []⟩ 0 5 1 (.num 85)).2 (by decide),
   (submit_score_permission ⟨[], [], []⟩ 2 5 1 (.num 85)).2 (by decide)⟩

/-- C3: as a teacher, `submit_score` fails with the validation error when
the score is missing, non-numeric or outside [0, 100], and with the
not-found error when the score is valid but no enrollment exists for the
(student, course) pair; in every failure case the returned state is the
unchanged input state, so in particular no `grade` row is created. -/
theorem submit_score_failure_spec (st : DBState) (sid cid : Nat) (q : ℚ) :
    submit_score st 1 sid cid .empty = (.validationError, st) ∧
    submit_score st 1 sid cid .nonNumeric = (.validationError, st) ∧
    (q < 0 ∨ 100 < q →
      submit_score st 1 sid cid (.num q) = (.validationError, st)) ∧
    (0 ≤ q → q ≤ 100 →
      (∀ e ∈ st.enrollments, ¬(e.student_id = sid ∧ e.course_id = cid)) →
      submit_score st 1 sid cid (.num q) = (.notFoundError, st)) := by
  refine ⟨rfl, rfl, fun hq => ?_, fun hq0 hq1 hno => ?_⟩
  · unfold submit_score
    simp [hq]
  · have hnot : enrolled st.enrollments sid cid = false := by
      unfold enrolled
      rw [List.any_eq_false]
      intro e he
      have := hno e he
      simp only [Bool.and_eq_true, beq_iff_eq]
      tauto
    have hq' : ¬(q < 0 ∨ 100 < q) := by
      push_neg
      exact ⟨hq0, hq1⟩
    unfold submit_score
    simp [hq', hnot]

/-- Witness for C3: on a concrete state with an unrelated enrollment, the
out-of-range score 150 is rejected with the validation error, and the
valid score 50 on an unenrolled pair is rejected with the not-found
error. -/
theorem submit_score_failure_spec_witness :
    submit_score ⟨[], [⟨6, 2, none⟩], []⟩ 1 5 1 (.num 150) =
      (.validationError, ⟨[], [⟨6, 2, none⟩], []⟩) ∧
    submit_score ⟨[], [⟨6, 2, none⟩], []⟩ 1 5 1 (.num 50) =
      (.notFoundError, ⟨[], [⟨6, 2, none⟩], []⟩) :=
  ⟨(submit_score_failure_spec ⟨[], [⟨6, 2, none⟩], []⟩ 5 1 150).2.2.1
      (Or.inr (by norm_num)),
   (submit_score_failure_spec ⟨[], [⟨6, 2, none⟩], []⟩ 5 1 50).2.2.2
      (by norm_num) (by norm_num) (by intro e he hm; fin_cases he; simp_all)⟩

/-- C6: when the teacher-route `delete_course` succeeds, the deletion has
cascaded to all dependent records: no course row, no enrollment row and no
mirrored `grade` row for the deleted course remains, so no foreign key
references the deleted course.  (Success is only possible when the course
has no `grade` rows: otherwise the flush nulls their non-nullable
`course_id`, the commit raises, and the handler rolls back with code 500.)
-/
theorem delete_course_cascade (st st' : DBState) (role aid cid : Nat)
    (h : delete_course st role aid (some cid) = (.ok, st')) :
    (∀ c ∈ st'.courses, c.id ≠ cid) ∧
    (∀ e ∈ st'.enrollments, e.course_id ≠ cid) ∧
    (∀ g ∈ st'.grades, g.course_id ≠ cid) := by
  have hred : delete_course st role aid (some cid) =
      if role != 1 then (.permissionError, st)
      else
        match st.courses.find? (fun c => c.id == cid) with
        | none => (.notFoundError, st)
        | some course =>
          if course.teacher_id != some aid then (.permissionError, st)
          else if st.grades.any (fun g => g.course_id == cid) then
            (.serverError, st)
          else
            (.ok, { st with
              courses := st.courses.filter (fun c => c.id != cid),
              enrollments := st.enrollments.filter
                (fun e => e.course_id != cid) }) := rfl
  rw [hred] at h
  split at h
  · simp at h
  · split at h
    · simp at h
    · split at h
      · simp at h
      · split at h
        · simp at h
        · rename_i hgr
          have h2 : _ = st' := congrArg Prod.snd h
          subst h2
          refine ⟨fun c hc => ?_, fun e he => ?_, fun g hg => ?_⟩
          · simpa using List.of_mem_filter hc
          · simpa using List.of_mem_filter he
          · rw [Bool.not_eq_true, List.any_eq_false] at hgr
            simpa using hgr g hg

/-- Witness for C6: teacher 7 deletes course 1, which has an enrollment
but no `grade` row (a mirror row for a different course is present):
afterwards nothing references course 1. -/
theorem delete_course_cascade_witness :
    (∀ c ∈ (delete_course ⟨[⟨1, "A", 2, some 7⟩], [⟨5, 1, some 80⟩],
        [⟨5, 2, 80⟩]⟩ 1 7 (some 1)).2.courses, c.id ≠ 1) ∧
    (∀ e ∈ (delete_course ⟨[⟨1, "A", 2, some 7⟩], [⟨5, 1, some 80⟩],
        [⟨5, 2, 80⟩]⟩ 1 7 (some 1)).2.enrollments, e.course_id ≠ 1) ∧
    (∀ g ∈ (delete_course ⟨[⟨1, "A", 2, some 7⟩], [⟨5, 1, some 80⟩],
        [⟨5, 2, 80⟩]⟩ 1 7 (some 1)).2.grades, g.course_id ≠ 1) :=
  delete_course_cascade ⟨[⟨1, "A", 2, some 7⟩], [⟨5, 1, some 80⟩], [⟨5, 2, 80⟩]⟩
    _ 1 7 1 (by decide)

/-- Counterexample for C9 as stated: an admin (role 2) does not proceed
past the permission check of `submit_score`: even with a valid score and
an existing enrollment for the pair, the call fails with the permission
error. -/
theorem submit_score_rejects_admin :
    enrolled [⟨5, 1, none⟩] 5 1 = true ∧
    submit_score ⟨[⟨1, "A", 2, some 7⟩], [⟨5, 1, none⟩], []⟩ 2 5 1 (.num 85) =
      (.permissionError, ⟨[⟨1, "A", 2, some 7⟩], [⟨5, 1, none⟩], []⟩) := by
  constructor <;> decide

/-- Counterexample for C8 as stated: a teacher creating a course through
the teacher blueprint with credit 0.1 — below the claimed 0.5 lower
bound — succeeds, and the course is created. -/
theorem teacher_create_course_accepts_credit_below_half :
    teacher_create_course ⟨[], [], []⟩ 1 7 "Math" (.num (1 / 10)) 1 =
      (.ok, ⟨[⟨1, "Math", 1 / 10, some 7⟩], [], []⟩) := by
  unfold teacher_create_course
  rw [if_neg (by simp), if_neg (by simp)]
  show (if (1 / 10 : ℚ) < 0 then _ else _) = _
  rw [if_neg (by norm_num)]
  rfl

/-- C8 (amended): only the admin-blueprint `add_course` path (open to
teachers and admins) validates the course name as non-empty and the
credit in [0.5, 10], creating no course on a violation; the teacher
blueprint's `course_manage` creation path only rejects empty names,
missing or non-numeric credit, and negative credit, so out-of-range
credits such as 0.1 or 100 are accepted there and create the course. -/
theorem create_course_validation (st : DBState) (role aid newId : Nat)
    (name : String) (q : ℚ) :
    (courseFormValid name (.num q) = true ↔
      name ≠ "" ∧ (1 / 2 : ℚ) ≤ q ∧ q ≤ 10) ∧
    (1 ≤ role → courseFormValid name (.num q) = false →
      add_course st role aid name (.num q) newId = (.validationError, st)) ∧
    (name ≠ "" → 0 ≤ q →
      teacher_create_course st 1 aid name (.num q) newId =
        (.ok, { st with courses := st.courses ++ [⟨newId, name, q, some aid⟩] })) ∧
    (q < 0 →
      teacher_create_course st 1 aid name (.num q) newId =
        (.validationError, st)) ∧
    teacher_create_course st 1 aid "" (.num q) newId = (.validationError, st) ∧
    teacher_create_course st 1 aid name .nonNumeric newId =
      (.validationError, st) := by
  refine ⟨?_, fun hrole hval => ?_, fun hname hq => ?_, fun hq => ?_, ?_, ?_⟩
  · simp only [courseFormValid, Bool.and_eq_true, bne_iff_ne, ne_eq,
      decide_eq_true_eq]
    tauto
  · unfold add_course
    rw [if_neg (by omega), hval]
    simp
  · unfold teacher_create_course
    rw [if_neg (by simp), if_neg (by simp [hname])]
    show (if q < 0 then _ else _) = _
    rw [if_neg (not_lt.mpr hq)]
  · unfold teacher_create_course
    rw [if_neg (by simp)]
    by_cases hname : name = ""
    · rw [if_pos (Or.inl hname)]
    · rw [if_neg (by simp [hname])]
      show (if q < 0 then _ else _) = _
      rw [if_pos hq]
  · unfold teacher_create_course
    rw [if_neg (by simp)]
    rw [if_pos (Or.inl rfl)]
  · unfold teacher_create_course
    rw [if_neg (by simp)]
    by_cases hname : name = ""
    · rw [if_pos (Or.inl hname)]
    · rw [if_neg (by simp [hname])]

/-- Witness for C8 (amended): the admin form rejects credit 100 with no
course created, while the teacher path accepts credit 100 and creates the
course. -/
theorem create_course_validation_witness :
    add_course ⟨[], [], []⟩ 2 7 "Math" (.num 100) 1 =
      (.validationError, ⟨[], [], []⟩) ∧
    teacher_create_course ⟨[], [], []⟩ 1 7 "Math" (.num 100) 1 =
      (.ok, ⟨[⟨1, "Math", 100, some 7⟩], [], []⟩) :=
  ⟨(create_course_validation ⟨[], [], []⟩ 2 7 1 "Math" 100).2.1
      (by norm_num) (by norm_num [courseFormValid]),
   (create_course_validation ⟨[], [], []⟩ 2 7 1 "Math" 100).2.2.1
      (by simp) (by norm_num)⟩

lemma countEnr_cons (a : Enrollment) (rest : List Enrollment) (sid cid : Nat) :
    countEnr (a :: rest) sid cid =
      (if a.student_id == sid && a.course_id == cid then 1 else 0) +
        countEnr rest sid cid := by
  simp only [countEnr, List.filter_cons]
  split
  · simp [Nat.add_comm]
  · simp

lemma countEnr_zero (l : List Enrollment) (sid cid : Nat)
    (h : countEnr l sid cid = 0) :
    ∀ e ∈ l, ¬(e.student_id = sid ∧ e.course_id = cid) := by
  intro e he hm
  have hmem : e ∈ l.filter (fun e => e.student_id == sid && e.course_id == cid) :=
    List.mem_filter.mpr ⟨he, by simp [hm.1, hm.2]⟩
  rw [countEnr, List.length_eq_zero] at h
  rw [h] at hmem
  exact absurd hmem (List.not_mem_nil e)

lemma setScoreFirst_sets (sid cid : Nat) (q : ℚ) :
    ∀ l : List Enrollment, countEnr l sid cid ≤ 1 →
      ∀ e ∈ setScoreFirst l sid cid q,
        e.student_id = sid → e.course_id = cid → e.score = some q := by
  intro l
  induction l with
  | nil => intro _ e he; exact absurd he (List.not_mem_nil e)
  | cons a rest ih =>
    intro hcount e he h1 h2
    rw [setScoreFirst] at he
    by_cases hm : (a.student_id == sid && a.course_id == cid) = true
    · rw [if_pos hm] at he
      rcases List.mem_cons.mp he with rfl | htail
      · rfl
      · rw [countEnr_cons, if_pos hm] at hcount
        have hz : countEnr rest sid cid = 0 := by omega
        exact absurd ⟨h1, h2⟩ (countEnr_zero rest sid cid hz e htail)
    · rw [if_neg hm] at he
      rcases List.mem_cons.mp he with rfl | htail
      · simp [h1, h2] at hm
      · rw [countEnr_cons, if_neg hm] at hcount
        exact ih (by omega) e htail h1 h2

lemma setScoreFirst_exists (sid cid : Nat) (q : ℚ) :
    ∀ l : List Enrollment, enrolled l sid cid = true →
      ∃ e ∈ setScoreFirst l sid cid q,
        e.student_id = sid ∧ e.course_id = cid ∧ e.score = some q := by
  intro l
  induction l with
  | nil => intro h; simp [enrolled] at h
  | cons a rest ih =>
    intro h
    rw [setScoreFirst]
    by_cases hm : (a.student_id == sid && a.course_id == cid) = true
    · rw [if_pos hm]
      simp only [Bool.and_eq_true, beq_iff_eq] at hm
      exact ⟨{ a with score := some q }, List.mem_cons_self _ _, hm.1, hm.2, rfl⟩
    · rw [if_neg hm]
      have h' : enrolled rest sid cid = true := by
        rw [enrolled, List.any_cons, Bool.or_eq_true] at h
        rcases h with h | h
        · exact absurd h hm
        · exact h
      rcases ih h' with ⟨e, he, hp⟩
      exact ⟨e, List.mem_cons_of_mem a he, hp⟩

lemma countGrd_cons (a : Grade) (rest : List Grade) (sid cid : Nat) :
    countGrd (a :: rest) sid cid =
      (if a.student_id == sid && a.course_id == cid then 1 else 0) +
        countGrd rest sid cid := by
  simp only [countGrd, List.filter_cons]
  split
  · simp [Nat.add_comm]
  · simp

lemma countGrd_zero (l : List Grade) (sid cid : Nat)
    (h : countGrd l sid cid = 0) :
    ∀ g ∈ l, ¬(g.student_id = sid ∧ g.course_id = cid) := by
  intro g hg hm
  have hmem : g ∈ l.filter (fun g => g.student_id == sid && g.course_id == cid) :=
    List.mem_filter.mpr ⟨hg, by simp [hm.1, hm.2]⟩
  rw [countGrd, List.length_eq_zero] at h
  rw [h] at hmem
  exact absurd hmem (List.not_mem_nil g)

lemma setGradeFirst_sets (sid cid : Nat) (q : ℚ) :
    ∀ l : List Grade, countGrd l sid cid ≤ 1 →
      ∀ g ∈ setGradeFirst l sid cid q,
        g.student_id = sid → g.course_id = cid → g.score = q := by
  intro l
  induction l with
  | nil => intro _ g hg; exact absurd hg (List.not_mem_nil g)
  | cons a rest ih =>
    intro hcount g hg h1 h2
    rw [setGradeFirst] at hg
    by_cases hm : (a.student_id == sid && a.course_id == cid) = true
    · rw [if_pos hm] at hg
      rcases List.mem_cons.mp hg with rfl | htail
      · rfl
      · rw [countGrd_cons, if_pos hm] at hcount
        have hz : countGrd rest sid cid = 0 := by omega
        exact absurd ⟨h1, h2⟩ (countGrd_zero rest sid cid hz g htail)
    · rw [if_neg hm] at hg
      rcases List.mem_cons.mp hg with rfl | htail
      · simp [h1, h2] at hm
      · rw [countGrd_cons, if_neg hm] at hcount
        exact ih (by omega) g htail h1 h2

lemma setGradeFirst_exists (sid cid : Nat) (q : ℚ) :
    ∀ l : List Grade,
      l.any (fun g => g.student_id == sid && g.course_id == cid) = true →
      ∃ g ∈ setGradeFirst l sid cid q,
        g.student_id = sid ∧ g.course_id = cid ∧ g.score = q := by
  intro l
  induction l with
  | nil => intro h; simp at h
  | cons a rest ih =>
    intro h
    rw [setGradeFirst]
    by_cases hm : (a.student_id == sid && a.course_id == cid) = true
    · rw [if_pos hm]
      simp only [Bool.and_eq_true, beq_iff_eq] at hm
      exact ⟨{ a with score := q }, List.mem_cons_self _ _, hm.1, hm.2, rfl⟩
    · rw [if_neg hm]
      rw [List.any_cons, Bool.or_eq_true] at h
      rcases h with h | h
      · exact absurd h hm
      · rcases ih h with ⟨g, hg, hp⟩
        exact ⟨g, List.mem_cons_of_mem a hg, hp⟩

lemma upsertGrade_spec (l : List Grade) (sid cid : Nat) (q : ℚ)
    (h : countGrd l sid cid ≤ 1) :
    (∃ g ∈ upsertGrade l sid cid q,
      g.student_id = sid ∧ g.course_id = cid ∧ g.score = q) ∧
    (∀ g ∈ upsertGrade l sid cid q,
      g.student_id = sid → g.course_id = cid → g.score = q) := by
  unfold upsertGrade
  by_cases ha : l.any (fun g => g.student_id == sid && g.course_id == cid) = true
  · rw [if_pos ha]
    exact ⟨setGradeFirst_exists sid cid q l ha, setGradeFirst_sets sid cid q l h⟩
  · rw [if_neg ha]
    constructor
    · exact ⟨⟨sid, cid, q⟩, List.mem_append_right l (List.mem_singleton.mpr rfl),
        rfl, rfl, rfl⟩
    · intro g hg h1 h2
      rcases List.mem_append.mp hg with hmem | hmem
      · rw [Bool.not_eq_true, List.any_eq_false] at ha
        have := ha g hmem
        simp [h1, h2] at this
      · rw [List.mem_singleton.mp hmem]

/-- C4: when `submit_score` succeeds on an existing enrollment (in a state
respecting the at-most-one-row-per-pair schema invariant), the
enrollment's score is set to the submitted score and a mirrored `grade`
row for the same pair is upserted with that same score — updated when one
exists, created otherwise; hence afterwards every `grade` row for the pair
carries exactly the score of the corresponding enrollment. -/
theorem submit_score_mirror_invariant (st st' : DBState) (sid cid : Nat) (q : ℚ)
    (hE : countEnr st.enrollments sid cid ≤ 1)
    (hG : countGrd st.grades sid cid ≤ 1)
    (h : submit_score st 1 sid cid (.num q) = (.ok, st')) :
    (∃ e ∈ st'.enrollments, e.student_id = sid ∧ e.course_id = cid ∧
      e.score = some q) ∧
    (∀ e ∈ st'.enrollments, e.student_id = sid → e.course_id = cid →
      e.score = some q) ∧
    (∃ g ∈ st'.grades, g.student_id = sid ∧ g.course_id = cid ∧ g.score = q) ∧
    (∀ g ∈ st'.grades, g.student_id = sid → g.course_id = cid → g.score = q) ∧
    (∀ g ∈ st'.grades, g.student_id = sid → g.course_id = cid →
      ∀ e ∈ st'.enrollments, e.student_id = sid → e.course_id = cid →
        e.score = some g.score) := by
  have hred : submit_score st 1 sid cid (.num q) =
      if q < 0 ∨ 100 < q then (.validationError, st)
      else if enrolled st.enrollments sid cid then
        (.ok,
          { st with
            enrollments := setScoreFirst st.enrollments sid cid q
            grades := upsertGrade st.grades sid cid q })
      else (.notFoundError, st) := rfl
  rw [hred] at h
  split at h
  · simp at h
  · split at h
    · rename_i henr
      have h2 : _ = st' := congrArg Prod.snd h
      subst h2
      refine ⟨setScoreFirst_exists sid cid q st.enrollments henr,
        setScoreFirst_sets sid cid q st.enrollments hE,
        (upsertGrade_spec st.grades sid cid q hG).1,
        (upsertGrade_spec st.grades sid cid q hG).2, ?_⟩
      intro g hg hg1 hg2 e he he1 he2
      rw [(upsertGrade_spec st.grades sid cid q hG).2 g hg hg1 hg2]
      exact setScoreFirst_sets sid cid q st.enrollments hE e he he1 he2
    · simp at h

/-- Witness for C4: submitting score 85 for the enrolled pair (5, 1) in a
concrete state: afterwards the enrollment carries score 85 and the freshly
created mirror `grade` row carries the same 85. -/
theorem submit_score_mirror_invariant_witness :
    (∃ e ∈ (⟨[], [⟨5, 1, some 85⟩], [⟨5, 1, 85⟩]⟩ : DBState).enrollments,
      e.student_id = 5 ∧ e.course_id = 1 ∧ e.score = some 85) ∧
    (∀ e ∈ (⟨[], [⟨5, 1, some 85⟩], [⟨5, 1, 85⟩]⟩ : DBState).enrollments,
      e.student_id = 5 → e.course_id = 1 → e.score = some 85) ∧
    (∃ g ∈ (⟨[], [⟨5, 1, some 85⟩], [⟨5, 1, 85⟩]⟩ : DBState).grades,
      g.student_id = 5 ∧ g.course_id = 1 ∧ g.score = 85) ∧
    (∀ g ∈ (⟨[], [⟨5, 1, some 85⟩], [⟨5, 1, 85⟩]⟩ : DBState).grades,
      g.student_id = 5 → g.course_id = 1 → g.score = 85) ∧
    (∀ g ∈ (⟨[], [⟨5, 1, some 85⟩], [⟨5, 1, 85⟩]⟩ : DBState).grades,
      g.student_id = 5 → g.course_id = 1 →
      ∀ e ∈ (⟨[], [⟨5, 1, some 85⟩], [⟨5, 1, 85⟩]⟩ : DBState).enrollments,
        e.student_id = 5 → e.course_id = 1 → e.score = some g.score) :=
  submit_score_mirror_invariant ⟨[], [⟨5, 1, none⟩], []⟩
    ⟨[], [⟨5, 1, some 85⟩], [⟨5, 1, 85⟩]⟩ 5 1 85
    (by decide) (by decide) rfl

lemma enrolled_false_iff (l : List Enrollment) (sid cid : Nat) :
    enrolled l sid cid = false ↔ countEnr l sid cid = 0 := by
  rw [enrolled, List.any_eq_false, countEnr, List.length_eq_zero,
    List.filter_eq_nil_iff]

lemma countEnr_append (l1 l2 : List Enrollment) (sid cid : Nat) :
    countEnr (l1 ++ l2) sid cid = countEnr l1 sid cid + countEnr l2 sid cid := by
  simp [countEnr, List.filter_append]

lemma countEnr_single_new (sid id c : Nat) :
    countEnr [⟨sid, id, none⟩] sid c = if id = c then 1 else 0 := by
  by_cases h : id = c
  · simp [countEnr, List.filter, h]
  · simp only [countEnr, List.filter_cons, List.filter_nil]
    have : ((⟨sid, id, none⟩ : Enrollment).student_id == sid &&
        (⟨sid, id, none⟩ : Enrollment).course_id == c) = false := by
      simp [h]
    rw [this]
    simp [h]

lemma selectLoop_count (sid c : Nat) :
    ∀ (ids : List Nat) (st : DBState) (n : Nat),
      countEnr ((ids.foldl (selectStep sid) (st, n)).1.enrollments) sid c =
        if c ∈ ids ∧ countEnr st.enrollments sid c = 0 then 1
        else countEnr st.enrollments sid c := by
  intro ids
  induction ids with
  | nil => intro st n; simp
  | cons id rest ih =>
    intro st n
    rw [List.foldl_cons]
    by_cases he : enrolled st.enrollments sid id = true
    · rw [show selectStep sid (st, n) id = (st, n) by
        simp [selectStep, he]]
      rw [ih st n]
      by_cases hc : c = id
      · subst hc
        have hnz : countEnr st.enrollments sid c ≠ 0 := by
          intro h0
          rw [← enrolled_false_iff] at h0
          rw [h0] at he
          exact Bool.false_ne_true he
        simp [hnz]
      · simp [List.mem_cons, hc]
    · rw [Bool.not_eq_true] at he
      rw [show selectStep sid (st, n) id =
          ({ st with enrollments := st.enrollments ++ [⟨sid, id, none⟩] }, n + 1) by
        simp [selectStep, he]]
      rw [ih]
      have hz : countEnr st.enrollments sid id = 0 :=
        (enrolled_false_iff st.enrollments sid id).mp he
      by_cases hc : c = id
      · subst hc
        have h1 : countEnr (st.enrollments ++ [⟨sid, c, none⟩]) sid c = 1 := by
          rw [countEnr_append, hz, countEnr_single_new]
          simp
        simp [h1, hz]
      · have h1 : countEnr (st.enrollments ++ [⟨sid, id, none⟩]) sid c =
            countEnr st.enrollments sid c := by
          rw [countEnr_append, countEnr_single_new]
          simp [Ne.symm hc]
        rw [h1]
        simp [List.mem_cons, hc]

lemma enrolled_append (l1 l2 : List Enrollment) (sid cid : Nat) :
    enrolled (l1 ++ l2) sid cid = (enrolled l1 sid cid || enrolled l2 sid cid) := by
  simp [enrolled, List.any_append]

lemma selectLoop_noop (sid : Nat) :
    ∀ (ids : List Nat) (st : DBState) (n : Nat),
      (∀ c ∈ ids, enrolled st.enrollments sid c = true) →
      ids.foldl (selectStep sid) (st, n) = (st, n) := by
  intro ids
  induction ids with
  | nil => intro st n _; rfl
  | cons id rest ih =>
    intro st n h
    rw [List.foldl_cons]
    rw [show selectStep sid (st, n) id = (st, n) by
      simp [selectStep, h id (List.mem_cons_self id rest)]]
    exact ih st n (fun c hc => h c (List.mem_cons_of_mem id hc))

lemma selectLoop_shape (sid : Nat) :
    ∀ (ids : List Nat) (st : DBState) (n : Nat),
      ∃ added : List Enrollment,
        (ids.foldl (selectStep sid) (st, n)).1 =
          { st with enrollments := st.enrollments ++ added } ∧
        (ids.foldl (selectStep sid) (st, n)).2 = n + added.length ∧
        (∀ e ∈ added, e.student_id = sid ∧ e.score = none ∧
          e.course_id ∈ ids ∧ enrolled st.enrollments sid e.course_id = false) ∧
        (added.map (fun e => e.course_id)).Nodup := by
  intro ids
  induction ids with
  | nil =>
    intro st n
    exact ⟨[], by simp, by simp, by simp, by simp⟩
  | cons id rest ih =>
    intro st n
    rw [List.foldl_cons]
    by_cases he : enrolled st.enrollments sid id = true
    · rw [show selectStep sid (st, n) id = (st, n) by
        simp [selectStep, he]]
      rcases ih st n with ⟨added, h1, h2, h3, h4⟩
      refine ⟨added, h1, h2, fun e hmem => ?_, h4⟩
      rcases h3 e hmem with ⟨p1, p2, p3, p4⟩
      exact ⟨p1, p2, List.mem_cons_of_mem id p3, p4⟩
    · rw [Bool.not_eq_true] at he
      rw [show selectStep sid (st, n) id =
          ({ st with enrollments := st.enrollments ++ [⟨sid, id, none⟩] }, n + 1) by
        simp [selectStep, he]]
      rcases ih { st with enrollments := st.enrollments ++ [⟨sid, id, none⟩] }
        (n + 1) with ⟨added, h1, h2, h3, h4⟩
      refine ⟨⟨sid, id, none⟩ :: added, ?_, ?_, ?_, ?_⟩
      · rw [h1]
        simp
      · rw [h2]
        simp [Nat.add_assoc, Nat.add_comm 1 added.length]
      · intro e hmem
        rcases List.mem_cons.mp hmem with rfl | htail
        · exact ⟨rfl, rfl, List.mem_cons_self id rest, he⟩
        · rcases h3 e htail with ⟨p1, p2, p3, p4⟩
          refine ⟨p1, p2, List.mem_cons_of_mem id p3, ?_⟩
          rw [enrolled_append, Bool.or_eq_false_iff] at p4
          exact p4.1
      · rw [List.map_cons, List.nodup_cons]
        constructor
        · intro hmem
          rcases List.mem_map.mp hmem with ⟨e, hmem2, heq⟩
          rcases h3 e hmem2 with ⟨p1, p2, p3, p4⟩
          rw [enrolled_append, Bool.or_eq_false_iff] at p4
          have : enrolled [⟨sid, id, none⟩] sid e.course_id = false := p4.2
          rw [heq] at this
          simp [enrolled] at this
        · exact h4

lemma select_course_run (st : DBState) (sid : Nat) (ids : List Nat)
    (h : ids ≠ []) :
    select_course st 0 sid ids =
      ((ids.foldl (selectStep sid) (st, 0)).1,
        some (ids.foldl (selectStep sid) (st, 0)).2) := by
  unfold select_course
  rw [if_neg (by simp), if_neg (by simp [List.isEmpty_iff, h])]

/-- C5: for every student and nonempty list of course ids, `select_course`
creates a new enrollment with null score exactly for the submitted ids not
already enrolled, silently skips duplicate selections (the added ids are
pairwise distinct and were all unenrolled before), returns the count of
newly created enrollments, leaves exactly one enrollment row for a
previously-unenrolled selected pair, keeps that count at one under any
further `select_course` call, and is idempotent: re-running with the same
ids changes nothing and reports 0 new enrollments. -/
theorem select_course_spec (st : DBState) (sid : Nat) (ids : List Nat) (c : Nat)
    (hne : ids ≠ []) (hc : c ∈ ids)
    (hnew : enrolled st.enrollments sid c = false) :
    ∃ added : List Enrollment,
      select_course st 0 sid ids =
        ({ st with enrollments := st.enrollments ++ added },
          some added.length) ∧
      (∀ e ∈ added, e.student_id = sid ∧ e.score = none ∧ e.course_id ∈ ids ∧
        enrolled st.enrollments sid e.course_id = false) ∧
      (added.map (fun e => e.course_id)).Nodup ∧
      countEnr (st.enrollments ++ added) sid c = 1 ∧
      (∀ ids2 : List Nat,
        countEnr ((select_course
            { st with enrollments := st.enrollments ++ added } 0 sid
            ids2).1.enrollments) sid c = 1) ∧
      select_course { st with enrollments := st.enrollments ++ added } 0 sid
          ids =
        ({ st with enrollments := st.enrollments ++ added }, some 0) := by
  rcases selectLoop_shape sid ids st 0 with ⟨added, h1, h2, h3, h4⟩
  have hz : countEnr st.enrollments sid c = 0 :=
    (enrolled_false_iff st.enrollments sid c).mp hnew
  have hcnt : countEnr (st.enrollments ++ added) sid c = 1 := by
    have := selectLoop_count sid c ids st 0
    rw [h1] at this
    simpa [hc, hz] using this
  have hmain : select_course st 0 sid ids =
      ({ st with enrollments := st.enrollments ++ added }, some added.length) := by
    rw [select_course_run st sid ids hne, h1, h2]
    simp
  have henr1 : ∀ c2 ∈ ids,
      enrolled (st.enrollments ++ added) sid c2 = true := by
    intro c2 hc2
    cases hb : enrolled (st.enrollments ++ added) sid c2 with
    | true => rfl
    | false =>
      have h0 := (enrolled_false_iff _ sid c2).mp hb
      have hcount2 : countEnr (st.enrollments ++ added) sid c2 =
          if c2 ∈ ids ∧ countEnr st.enrollments sid c2 = 0 then 1
          else countEnr st.enrollments sid c2 := by
        have := selectLoop_count sid c2 ids st 0
        rw [h1] at this
        exact this
      rw [h0] at hcount2
      by_cases hz2 : countEnr st.enrollments sid c2 = 0
      · simp [hc2, hz2] at hcount2
      · rw [if_neg (by tauto)] at hcount2
        exact absurd hcount2.symm hz2
  refine ⟨added, hmain, h3, h4, hcnt, ?_, ?_⟩
  · intro ids2
    by_cases h2e : ids2 = []
    · subst h2e
      simpa [select_course] using hcnt
    · rw [select_course_run _ sid ids2 h2e]
      have hthis : countEnr ((ids2.foldl (selectStep sid)
          ({ st with enrollments := st.enrollments ++ added }, 0)).1.enrollments)
          sid c =
          if c ∈ ids2 ∧ countEnr (st.enrollments ++ added) sid c = 0 then 1
          else countEnr (st.enrollments ++ added) sid c :=
        selectLoop_count sid c ids2 _ 0
      rw [hthis, hcnt]
      rw [if_neg (by simp)]
  · rw [select_course_run _ sid ids hne]
    rw [selectLoop_noop sid ids _ 0 henr1]


/-- Witness for C5: student 5 selects courses [1, 1, 2] starting from an
empty database; the duplicated id 1 yields a single enrollment. -/
theorem select_course_spec_witness :
    ∃ added : List Enrollment,
      select_course ⟨[], [], []⟩ 0 5 [1, 1, 2] =
        ({ (⟨[], [], []⟩ : DBState) with
            enrollments := (⟨[], [], []⟩ : DBState).enrollments ++ added },
          some added.length) ∧
      (∀ e ∈ added, e.student_id = 5 ∧ e.score = none ∧
        e.course_id ∈ [1, 1, 2] ∧
        enrolled (⟨[], [], []⟩ : DBState).enrollments 5 e.course_id = false) ∧
      (added.map (fun e => e.course_id)).Nodup ∧
      countEnr ((⟨[], [], []⟩ : DBState).enrollments ++ added) 5 1 = 1 ∧
      (∀ ids2 : List Nat,
        countEnr ((select_course
            { (⟨[], [], []⟩ : DBState) with
              enrollments := (⟨[], [], []⟩ : DBState).enrollments ++ added }
            0 5 ids2).1.enrollments) 5 1 = 1) ∧
      select_course
          { (⟨[], [], []⟩ : DBState) with
            enrollments := (⟨[], [], []⟩ : DBState).enrollments ++ added }
          0 5 [1, 1, 2] =
        ({ (⟨[], [], []⟩ : DBState) with
            enrollments := (⟨[], [], []⟩ : DBState).enrollments ++ added },
          some 0) :=
  select_course_spec ⟨[], [], []⟩ 5 [1, 1, 2] 1 (by decide) (by decide)
    (by decide)

/-- C10: the GPA and the displayed grade-points read only the enrollment
and course tables, never the `grade` mirror: two database states that
agree on enrollments and courses (but may differ arbitrarily in `grade`
rows) yield the same GPA for every student and the same grade-point for
every enrollment row. -/
theorem gpa_independent_of_grades (st1 st2 : DBState) (sid : Nat)
    (he : st1.enrollments = st2.enrollments) (hc : st1.courses = st2.courses) :
    gpa_for st1 sid = gpa_for st2 sid ∧
    st1.enrollments.map (fun e => grade_point e.score) =
      st2.enrollments.map (fun e => grade_point e.score) := by
  constructor
  · unfold gpa_for
    rw [he, hc]
  · rw [he]

/-- Witness for C10: two concrete states that agree on enrollments and
courses but have different `grade` rows give the same GPA and the same
displayed grade-points. -/
theorem gpa_independent_of_grades_witness :
    gpa_for ⟨[⟨1, "A", 3, some 7⟩], [⟨5, 1, some 90⟩], []⟩ 5 =
      gpa_for ⟨[⟨1, "A", 3, some 7⟩], [⟨5, 1, some 90⟩], [⟨5, 1, 10⟩]⟩ 5 ∧
    ([⟨5, 1, some 90⟩] : List Enrollment).map (fun e => grade_point e.score) =
      ([⟨5, 1, some 90⟩] : List Enrollment).map (fun e => grade_point e.score) :=
  gpa_independent_of_grades ⟨[⟨1, "A", 3, some 7⟩], [⟨5, 1, some 90⟩], []⟩
    ⟨[⟨1, "A", 3, some 7⟩], [⟨5, 1, some 90⟩], [⟨5, 1, 10⟩]⟩ 5 rfl rfl

end SMS
